import Mathlib

/-!
Shallow embedding of `src/http/sentryhttp.go` (package `sentryhttp`), the
Sentry middleware for net/http servers.

The package under `src/` contains a single file defining:
  * `Handler` (fields `repanic`, `waitForDelivery`, `timeout`),
  * `Options` and the constructor `New`,
  * the wrapping operations `Handle`, `HandleFunc` and the private `handle`,
  * the deferred recovery routine `recoverWithSentry`.

The hub collaborator (`sentry.GetHubFromContext`, `sentry.SetHubOnContext`,
`sentry.CurrentHub().Clone()`, `Scope().SetRequest`, `RecoverWithContext`,
`Flush`) belongs to the surrounding repository but its code is not under
`src/`; those operations are modelled from the spec (sections 3, 5, 6), as
marked on each definition below.

Modelling choices:
  * `time.Duration` is an `Int` (nanoseconds); `time.Second = 1000000000`.
  * Panic values (the Go interface values passed to the panic builtin) are abstracted
    as `Nat`; `Option Nat` marks whether the handler panicked. Event
    identifiers returned by the fault-report operation are `Option Nat`.
  * Hubs are heap references (`Nat` indices into a list of scopes held by a
    `World`), so hub identity, cloning and in-place scope mutation are
    observable.
  * Calls into the external reporting client are recorded as a trace of
    `Effect`s; the client's decision (report accepted or filtered) is an
    explicit parameter `report`.
-/

/-- `time.Duration` in nanoseconds. -/
abbrev Duration := Int

/-- Go `time.Second`, in nanoseconds. -/
def timeSecond : Duration := 1000000000

/-- The `Handler` struct of `sentryhttp.go` (lines 15-19). -/
structure Handler where
  repanic : Bool
  waitForDelivery : Bool
  timeout : Duration
deriving Repr, DecidableEq

/-- The `Options` struct of `sentryhttp.go` (lines 22-30). -/
structure Options where
  Repanic : Bool
  WaitForDelivery : Bool
  Timeout : Duration
deriving Repr, DecidableEq

/-- `New` (lines 34-54): defaults `repanic = false`, `timeout = 2s`,
`waitForDelivery = false`, each overridden when the corresponding option is
set (non-zero / true). -/
def New (options : Options) : Handler :=
  let handler : Handler :=
    { repanic := false, timeout := timeSecond * 2, waitForDelivery := false }
  let handler := if options.Repanic then { handler with repanic := true } else handler
  let handler := if options.Timeout ≠ 0 then { handler with timeout := options.Timeout } else handler
  let handler := if options.WaitForDelivery then { handler with waitForDelivery := true } else handler
  handler

mutual
/-- A Go `context.Context`, restricted to the two keys this package ever
uses: the sentry hub key (`sentry.HubContextKey`) and the request key
(`sentry.RequestContextKey`). A hub is stored by reference (heap index). -/
inductive Context : Type where
  | mk : Option Nat → Option Request → Context

/-- A Go `*http.Request`: its context plus an abstract payload standing for
everything else (method, URL, headers, body...). -/
inductive Request : Type where
  | mk : Context → Nat → Request
end

/-- The hub entry of a context (what `sentry.GetHubFromContext` reads). -/
def Context.hubEntry : Context → Option Nat
  | .mk h _ => h

/-- The value stored under `sentry.RequestContextKey`, if any. -/
def Context.requestValue : Context → Option Request
  | .mk _ r => r

/-- Modelled from the spec: `sentry.SetHubOnContext` binds the reporting
context under the well-known hub key (spec section 6: "set-on-context"). -/
def Context.withHub : Context → Nat → Context
  | .mk _ r, hub => .mk (some hub) r

/-- Go `context.WithValue(ctx, sentry.RequestContextKey, r)`. -/
def Context.withRequestValue : Context → Request → Context
  | .mk h _, r => .mk h (some r)

/-- `r.Context()`. -/
def Request.ctx : Request → Context
  | .mk c _ => c

/-- The abstract payload of a request. -/
def Request.payload : Request → Nat
  | .mk _ d => d

/-- Go `r.WithContext(ctx)`: shallow copy of the request carrying the new
context. -/
def Request.withContext : Request → Context → Request
  | .mk _ d, c => .mk c d

/-- Modelled from the spec: a hub's scope, carrying the request metadata set
by `Scope().SetRequest` (spec section 3: the hub "is annotated with request
metadata ... immediately after creation/retrieval"). -/
structure Scope where
  request : Option Request

/-- Modelled from the spec: the heap of live hubs plus the process-wide
current hub (spec section 9: "process-wide default reporting client accessed
via ambient/global lookup"). Hubs are identified by their index, so identity
comparison and in-place mutation are expressible. -/
structure World where
  hubs : List Scope
  currentHub : Nat

/-- Modelled from the spec: `sentry.GetHubFromContext` — "retrieve-from-
context" (spec section 6). -/
def GetHubFromContext (ctx : Context) : Option Nat :=
  ctx.hubEntry

/-- Modelled from the spec: `sentry.SetHubOnContext` — "set-on-context"
(spec section 6). -/
def SetHubOnContext (ctx : Context) (hub : Nat) : Context :=
  ctx.withHub hub

/-- Modelled from the spec: `sentry.CurrentHub().Clone()` — "cloning must be
a cheap, side-effect-free operation producing an independent handle" (spec
section 5). The clone is a fresh hub whose scope copies the current hub's
scope. Returns the new hub's reference and the extended world. -/
def cloneCurrentHub (w : World) : Nat × World :=
  (w.hubs.length,
   { w with hubs := w.hubs ++ [w.hubs.getD w.currentHub { request := none }] })

/-- Modelled from the spec: `hub.Scope().SetRequest(r)` — per-instance scope
mutation, "set request metadata" (spec section 6). Mutates the scope of the
given hub in place. -/
def setRequestOnHub (w : World) (hub : Nat) (r : Request) : World :=
  { w with hubs := w.hubs.set hub { request := some r } }

/-- Lines 70-74 of `handle`: look up a hub on the request's context; if none
is present, clone the process-wide current hub. -/
def prepareHub (r : Request) (w : World) : Nat × World :=
  match GetHubFromContext r.ctx with
  | some hub => (hub, w)
  | none => cloneCurrentHub w

/-- The request the wrapped handler is invoked with (line 78):
`r.WithContext(ctx)` where `ctx` has the hub bound (line 76). -/
def innerRequest (r : Request) (w : World) : Request :=
  r.withContext (SetHubOnContext r.ctx (prepareHub r w).1)

/-- One recorded call into the external reporting client. -/
inductive Effect : Type where
  | recoverWithContext (hub : Nat) (ctx : Context) (v : Nat)
  | flush (hub : Nat) (timeout : Duration)

/-- Whether an effect is a fault-report call. -/
def Effect.isRecover : Effect → Bool
  | .recoverWithContext _ _ _ => true
  | .flush _ _ => false

/-- What the wrapped handler does when invoked: the writes it performs on
the response writer (abstract values) and, when it panics, the panic
value. -/
structure InnerResult where
  writes : List Nat
  panicVal : Option Nat

/-- Everything observable about one invocation of the wrapped handler:
the final hub heap, the request(s) the inner handler was invoked with, the
response-writer writes, the value caught by the deferred `recover()` (if
any), the trace of reporting-client calls, the panic (if any) escaping the
wrapper, and the receiver's configuration after the call (the methods take
a pointer receiver, so the translation threads it explicitly). -/
structure WrapResult where
  world : World
  served : List Request
  writes : List Nat
  recovered : Option Nat
  effects : List Effect
  panicOut : Option Nat
  handlerAfter : Handler

/-- `recoverWithSentry` (lines 82-95). `recovered` is the value returned by
`recover()` (`none` when no panic occurred); `report` is the external
client's fault-report behaviour (`hub.RecoverWithContext`), returning an
optional event identifier. Produces the trace of reporting-client calls and
the panic value re-raised out of the wrapper, if any. -/
def Handler.recoverWithSentry (h : Handler) (report : Context → Nat → Option Nat)
    (hub : Nat) (r : Request) (recovered : Option Nat) : List Effect × Option Nat :=
  match recovered with
  | none => ([], none)
  | some err =>
    let ctx := r.ctx.withRequestValue r
    let eventID := report ctx err
    let fx :=
      if eventID.isSome && h.waitForDelivery then
        [Effect.recoverWithContext hub ctx err, Effect.flush hub h.timeout]
      else
        [Effect.recoverWithContext hub ctx err]
    (fx, if h.repanic then some err else none)

/-- `handle` (lines 68-80): the wrapped handler. Gets or clones a hub
(lines 70-74), sets the request on its scope (line 75), binds the hub on
the context and invokes the inner handler with the context-augmented
request (lines 76, 78), with `recoverWithSentry` deferred (line 77). -/
def Handler.handle (h : Handler) (report : Context → Nat → Option Nat)
    (f : Request → InnerResult) (r : Request) (w : World) : WrapResult :=
  let hub := (prepareHub r w).1
  let w2 := setRequestOnHub (prepareHub r w).2 hub r
  let r2 := innerRequest r w
  let res := f r2
  let rc := h.recoverWithSentry report hub r res.panicVal
  { world := w2
    served := [r2]
    writes := res.writes
    recovered := res.panicVal
    effects := rc.1
    panicOut := rc.2
    handlerAfter := h }

/-- `Handle` (lines 59-61): wraps an `http.Handler`; delegates to
`handle`. -/
def Handler.Handle (h : Handler) (report : Context → Nat → Option Nat)
    (f : Request → InnerResult) : Request → World → WrapResult :=
  h.handle report f

/-- `HandleFunc` (lines 64-66, deprecated): wraps an `http.HandlerFunc`;
delegates to `handle`. -/
def Handler.HandleFunc (h : Handler) (report : Context → Nat → Option Nat)
    (f : Request → InnerResult) : Request → World → WrapResult :=
  h.handle report f

/-! ### Unfolding helpers -/

theorem handle_recovered (h : Handler) (report : Context → Nat → Option Nat)
    (f : Request → InnerResult) (r : Request) (w : World) :
    (h.handle report f r w).recovered = (f (innerRequest r w)).panicVal := rfl

theorem handle_effects (h : Handler) (report : Context → Nat → Option Nat)
    (f : Request → InnerResult) (r : Request) (w : World) :
    (h.handle report f r w).effects
      = (h.recoverWithSentry report (prepareHub r w).1 r (f (innerRequest r w)).panicVal).1 := rfl

theorem handle_panicOut (h : Handler) (report : Context → Nat → Option Nat)
    (f : Request → InnerResult) (r : Request) (w : World) :
    (h.handle report f r w).panicOut
      = (h.recoverWithSentry report (prepareHub r w).1 r (f (innerRequest r w)).panicVal).2 := rfl

theorem handle_world (h : Handler) (report : Context → Nat → Option Nat)
    (f : Request → InnerResult) (r : Request) (w : World) :
    (h.handle report f r w).world
      = setRequestOnHub (prepareHub r w).2 (prepareHub r w).1 r := rfl

theorem requestValue_withRequestValue (c : Context) (r : Request) :
    (c.withRequestValue r).requestValue = some r := by
  cases c
  rfl

theorem hubEntry_withHub (c : Context) (hub : Nat) :
    (c.withHub hub).hubEntry = some hub := by
  cases c
  rfl

theorem ctx_withContext (r : Request) (c : Context) :
    (r.withContext c).ctx = c := by
  cases r
  rfl

theorem prepareHub_of_hub (r : Request) (w : World) (hub0 : Nat)
    (hhub : r.ctx.hubEntry = some hub0) : prepareHub r w = (hub0, w) := by
  unfold prepareHub GetHubFromContext
  rw [hhub]

theorem prepareHub_of_none (r : Request) (w : World)
    (hhub : r.ctx.hubEntry = none) : prepareHub r w = cloneCurrentHub w := by
  unfold prepareHub GetHubFromContext
  rw [hhub]

/-! ### Sample values used by the closed witness instantiations -/

/-- A sample configuration: repanic and wait for delivery, 50ns timeout. -/
def sampleHandler : Handler := { repanic := true, waitForDelivery := true, timeout := 50 }

/-- A sample reporting client that accepts every event. -/
def sampleReport : Context → Nat → Option Nat := fun _ _ => some 1

/-- A sample wrapped handler that always panics with value 42 after one
write. -/
def samplePanicky : Request → InnerResult := fun _ => { writes := [3], panicVal := some 42 }

/-- A sample wrapped handler that writes its request payload and returns
normally. -/
def sampleCalm : Request → InnerResult := fun rq => { writes := [rq.payload], panicVal := none }

/-- A sample request whose context carries no hub. -/
def sampleRequest : Request := Request.mk (Context.mk none none) 7

/-- A sample request whose context carries hub 0. -/
def sampleRequestWithHub : Request := Request.mk (Context.mk (some 0) none) 7

/-- A sample world with a single hub, which is the current hub. -/
def sampleWorld : World := { hubs := [{ request := none }], currentHub := 0 }

/-! ### Claim theorems -/

/-- Helper: full characterization of `New` on each field. -/
theorem New_fields (o : Options) :
    (New o).repanic = o.Repanic ∧
    (New o).waitForDelivery = o.WaitForDelivery ∧
    (o.Timeout = 0 → (New o).timeout = timeSecond * 2) ∧
    (o.Timeout ≠ 0 → (New o).timeout = o.Timeout) := by
  rcases o with ⟨rp, wd, t⟩
  unfold New
  by_cases ht : t = 0 <;> cases rp <;> cases wd <;> simp_all

/-- Claim C6: for every `Options` value passed to `New`, an unset (zero)
`Timeout` yields an effective timeout of 2 seconds, unset (false) `Repanic`
and `WaitForDelivery` yield false flags, and set fields are carried over
exactly as given. -/
theorem New_defaults (o : Options) :
    (New o).repanic = o.Repanic ∧
    (New o).waitForDelivery = o.WaitForDelivery ∧
    (o.Timeout = 0 → (New o).timeout = timeSecond * 2) ∧
    (o.Timeout ≠ 0 → (New o).timeout = o.Timeout) :=
  New_fields o

/-- Witness for C6 at the concrete input `⟨true, false, 0⟩`. -/
theorem New_defaults_witness :
    (New ⟨true, false, 0⟩).repanic = true ∧
    (New ⟨true, false, 0⟩).waitForDelivery = false ∧
    (New ⟨true, false, 0⟩).timeout = timeSecond * 2 :=
  ⟨(New_defaults ⟨true, false, 0⟩).1, (New_defaults ⟨true, false, 0⟩).2.1,
   (New_defaults ⟨true, false, 0⟩).2.2.1 rfl⟩

/-- Claim C9: `New` stores any nonzero `Timeout` (negative included)
verbatim; only an exactly-zero `Timeout` is replaced by the 2 second
default, so an explicit zero is indistinguishable from an absent timeout
(in Go an absent field is the zero value, so both take the default
branch). -/
theorem New_timeout_verbatim (o : Options) :
    (o.Timeout ≠ 0 → (New o).timeout = o.Timeout) ∧
    (o.Timeout = 0 → (New o).timeout = timeSecond * 2 ∧
      New o = New { Repanic := o.Repanic, WaitForDelivery := o.WaitForDelivery, Timeout := 0 }) := by
  rcases o with ⟨rp, wd, t⟩
  refine ⟨fun ht => ?_, fun ht => ⟨?_, ?_⟩⟩
  · exact (New_fields ⟨rp, wd, t⟩).2.2.2 ht
  · exact (New_fields ⟨rp, wd, t⟩).2.2.1 ht
  · subst ht
    rfl

/-- Witness for C9: a negative timeout of -7ns is stored verbatim, and an
explicit zero takes the 2 second default. -/
theorem New_timeout_verbatim_witness :
    (New ⟨false, true, -7⟩).timeout = -7 ∧
    (New ⟨false, true, 0⟩).timeout = timeSecond * 2 :=
  ⟨(New_timeout_verbatim ⟨false, true, -7⟩).1 (by decide),
   ((New_timeout_verbatim ⟨false, true, 0⟩).2 rfl).1⟩

/-- Helper: `recoverWithSentry` unfolded on a caught panic value. -/
theorem recoverWithSentry_some (h : Handler) (report : Context → Nat → Option Nat)
    (hub : Nat) (r : Request) (v : Nat) :
    h.recoverWithSentry report hub r (some v)
      = (if (report (r.ctx.withRequestValue r) v).isSome && h.waitForDelivery then
           [Effect.recoverWithContext hub (r.ctx.withRequestValue r) v,
            Effect.flush hub h.timeout]
         else [Effect.recoverWithContext hub (r.ctx.withRequestValue r) v],
         if h.repanic then some v else none) := rfl

/-- Claim C1: when the wrapped handler panics with `v`, the trace contains
exactly one fault-report call; it carries the value `v` and a context whose
request entry is the original inbound request `r`. -/
theorem panic_reported_once (h : Handler) (report : Context → Nat → Option Nat)
    (f : Request → InnerResult) (r : Request) (w : World) (v : Nat)
    (hp : (h.handle report f r w).recovered = some v) :
    (h.handle report f r w).effects.filter Effect.isRecover
      = [Effect.recoverWithContext (prepareHub r w).1 (r.ctx.withRequestValue r) v] ∧
    (r.ctx.withRequestValue r).requestValue = some r := by
  rw [handle_recovered] at hp
  refine ⟨?_, requestValue_withRequestValue r.ctx r⟩
  rw [handle_effects, hp, recoverWithSentry_some]
  by_cases hc : ((report (r.ctx.withRequestValue r) v).isSome && h.waitForDelivery) = true
  · simp [hc, Effect.isRecover]
  · simp [hc, Effect.isRecover]

/-- Witness for C1 at the sample inputs (handler panicking with 42). -/
theorem panic_reported_once_witness :
    (sampleHandler.handle sampleReport samplePanicky sampleRequest sampleWorld).effects.filter
        Effect.isRecover
      = [Effect.recoverWithContext (prepareHub sampleRequest sampleWorld).1
          (sampleRequest.ctx.withRequestValue sampleRequest) 42] ∧
    (sampleRequest.ctx.withRequestValue sampleRequest).requestValue = some sampleRequest :=
  panic_reported_once sampleHandler sampleReport samplePanicky sampleRequest sampleWorld 42 rfl

/-- Claim C2: when the wrapped handler panics with `v`, the wrapper
re-raises `v` exactly when `repanic` is true, and no panic escapes when
`repanic` is false; the fault-report call is already in the emitted trace
(the trace is produced before `panicOut` is raised, so the report has
completed first). -/
theorem repanic_policy (h : Handler) (report : Context → Nat → Option Nat)
    (f : Request → InnerResult) (r : Request) (w : World) (v : Nat)
    (hp : (h.handle report f r w).recovered = some v) :
    (h.repanic = true → (h.handle report f r w).panicOut = some v) ∧
    (h.repanic = false → (h.handle report f r w).panicOut = none) ∧
    Effect.recoverWithContext (prepareHub r w).1 (r.ctx.withRequestValue r) v
      ∈ (h.handle report f r w).effects := by
  rw [handle_recovered] at hp
  rw [handle_panicOut, handle_effects, hp, recoverWithSentry_some]
  refine ⟨fun hr => by simp [hr], fun hr => by simp [hr], ?_⟩
  by_cases hc : ((report (r.ctx.withRequestValue r) v).isSome && h.waitForDelivery) = true
  · simp [hc]
  · simp [hc]

/-- Witness for C2 at the sample inputs (repanic configured, panic 42). -/
theorem repanic_policy_witness :
    (sampleHandler.handle sampleReport samplePanicky sampleRequest sampleWorld).panicOut = some 42 ∧
    Effect.recoverWithContext (prepareHub sampleRequest sampleWorld).1
        (sampleRequest.ctx.withRequestValue sampleRequest) 42
      ∈ (sampleHandler.handle sampleReport samplePanicky sampleRequest sampleWorld).effects :=
  ⟨(repanic_policy sampleHandler sampleReport samplePanicky sampleRequest sampleWorld 42 rfl).1 rfl,
   (repanic_policy sampleHandler sampleReport samplePanicky sampleRequest sampleWorld 42 rfl).2.2⟩

/-- Claim C3: after a recovered panic, a flush call appears in the trace
if and only if the fault-report returned a non-absent event identifier and
`waitForDelivery` is true, and any flush call uses exactly the configured
timeout. -/
theorem flush_policy (h : Handler) (report : Context → Nat → Option Nat)
    (f : Request → InnerResult) (r : Request) (w : World) (v : Nat)
    (hp : (h.handle report f r w).recovered = some v) :
    (∀ hub t, Effect.flush hub t ∈ (h.handle report f r w).effects → t = h.timeout) ∧
    ((∃ hub t, Effect.flush hub t ∈ (h.handle report f r w).effects) ↔
      h.waitForDelivery = true ∧ (report (r.ctx.withRequestValue r) v).isSome = true) := by
  rw [handle_recovered] at hp
  rw [handle_effects, hp, recoverWithSentry_some]
  cases hw : h.waitForDelivery <;>
    cases hs : (report (r.ctx.withRequestValue r) v).isSome <;>
      simp [hw, hs]

/-- Witness for C3 at the sample inputs: the reporting client accepts the
event and `waitForDelivery` is set, so a flush call is in the trace. -/
theorem flush_policy_witness :
    ∃ hub t, Effect.flush hub t
      ∈ (sampleHandler.handle sampleReport samplePanicky sampleRequest sampleWorld).effects :=
  ((flush_policy sampleHandler sampleReport samplePanicky sampleRequest sampleWorld 42
      rfl).2).2 ⟨rfl, rfl⟩

/-- Claim C4: when the wrapped handler does not panic, the wrapper performs
the handler's own writes unchanged, invokes it exactly once with the
context-augmented request, makes no reporting-client call, and lets no
panic escape. -/
theorem no_panic_passthrough (h : Handler) (report : Context → Nat → Option Nat)
    (f : Request → InnerResult) (r : Request) (w : World)
    (hp : (h.handle report f r w).recovered = none) :
    (h.handle report f r w).writes = (f (innerRequest r w)).writes ∧
    (h.handle report f r w).served = [innerRequest r w] ∧
    (h.handle report f r w).effects = [] ∧
    (h.handle report f r w).panicOut = none := by
  rw [handle_recovered] at hp
  refine ⟨rfl, rfl, ?_, ?_⟩
  · rw [handle_effects, hp]
    rfl
  · rw [handle_panicOut, hp]
    rfl

/-- Witness for C4 at the sample inputs (handler returning normally). -/
theorem no_panic_passthrough_witness :
    (sampleHandler.handle sampleReport sampleCalm sampleRequest sampleWorld).writes
      = (sampleCalm (innerRequest sampleRequest sampleWorld)).writes ∧
    (sampleHandler.handle sampleReport sampleCalm sampleRequest sampleWorld).served
      = [innerRequest sampleRequest sampleWorld] ∧
    (sampleHandler.handle sampleReport sampleCalm sampleRequest sampleWorld).effects = [] ∧
    (sampleHandler.handle sampleReport sampleCalm sampleRequest sampleWorld).panicOut = none :=
  no_panic_passthrough sampleHandler sampleReport sampleCalm sampleRequest sampleWorld rfl

/-- Claim C5: if the incoming context carries a hub, the wrapper uses that
very hub and allocates no clone (the world is unchanged by hub selection
and its hub count stays fixed); if it carries none, the wrapper clones the
current hub (one new hub is allocated); in both cases the inner handler is
invoked exactly once with a request whose context carries a hub under the
well-known key. -/
theorem hub_reuse_or_clone (h : Handler) (report : Context → Nat → Option Nat)
    (f : Request → InnerResult) (r : Request) (w : World) :
    (∀ hub0, r.ctx.hubEntry = some hub0 →
      (prepareHub r w).1 = hub0 ∧ (prepareHub r w).2 = w ∧
      (h.handle report f r w).world.hubs.length = w.hubs.length) ∧
    (r.ctx.hubEntry = none →
      (prepareHub r w).1 = w.hubs.length ∧
      (h.handle report f r w).world.hubs.length = w.hubs.length + 1) ∧
    (h.handle report f r w).served = [innerRequest r w] ∧
    (innerRequest r w).ctx.hubEntry = some (prepareHub r w).1 := by
  refine ⟨?_, ?_, rfl, ?_⟩
  · intro hub0 hhub
    have hp := prepareHub_of_hub r w hub0 hhub
    refine ⟨by rw [hp], by rw [hp], ?_⟩
    rw [handle_world, hp]
    simp [setRequestOnHub]
  · intro hhub
    have hp := prepareHub_of_none r w hhub
    refine ⟨by rw [hp]; rfl, ?_⟩
    rw [handle_world, hp]
    simp [setRequestOnHub, cloneCurrentHub]
  · show ((r.withContext (SetHubOnContext r.ctx (prepareHub r w).1)).ctx).hubEntry = _
    rw [ctx_withContext]
    exact hubEntry_withHub r.ctx (prepareHub r w).1

/-- Witness for C5: a request carrying hub 0 reuses hub 0; a request
carrying no hub gets the freshly cloned hub 1 and the heap grows by one. -/
theorem hub_reuse_or_clone_witness :
    (prepareHub sampleRequestWithHub sampleWorld).1 = 0 ∧
    (prepareHub sampleRequest sampleWorld).1 = sampleWorld.hubs.length ∧
    (sampleHandler.handle sampleReport samplePanicky sampleRequest sampleWorld).world.hubs.length
      = sampleWorld.hubs.length + 1 ∧
    (sampleHandler.handle sampleReport samplePanicky sampleRequestWithHub
        sampleWorld).world.hubs.length = sampleWorld.hubs.length :=
  ⟨((hub_reuse_or_clone sampleHandler sampleReport samplePanicky sampleRequestWithHub
      sampleWorld).1 0 rfl).1,
   ((hub_reuse_or_clone sampleHandler sampleReport samplePanicky sampleRequest
      sampleWorld).2.1 rfl).1,
   ((hub_reuse_or_clone sampleHandler sampleReport samplePanicky sampleRequest
      sampleWorld).2.1 rfl).2,
   ((hub_reuse_or_clone sampleHandler sampleReport samplePanicky sampleRequestWithHub
      sampleWorld).1 0 rfl).2.2⟩

/-- Claim C7: the deprecated `HandleFunc` entry point produces, for every
handler and every input, exactly the wrapped handler produced by the
primary `Handle` entry point: both delegate to the private `handle`. -/
theorem HandleFunc_alias (h : Handler) (report : Context → Nat → Option Nat)
    (f : Request → InnerResult) (r : Request) (w : World) :
    h.HandleFunc report f r w = h.Handle report f r w := rfl

/-- Claim C8: construction is a total pure function (`New` is defined for
every `Options` value and touches no state), and the handler configuration
is never mutated: after any invocation through `Handle`, `HandleFunc` or
`handle` (whose run includes the deferred recovery step), the receiver
configuration is exactly the one constructed. -/
theorem handler_immutable (h : Handler) (report : Context → Nat → Option Nat)
    (f : Request → InnerResult) (r : Request) (w : World) (o : Options) :
    (h.Handle report f r w).handlerAfter = h ∧
    (h.HandleFunc report f r w).handlerAfter = h ∧
    ((New o).handle report f r w).handlerAfter = New o :=
  ⟨rfl, rfl, rfl⟩

/-- Claim C10: when the incoming context already carries (a valid reference
to) a hub, the wrapper sets the request on that shared hub's scope in
place: after the call, the pre-existing hub slot holds the request, and no
new hub was allocated. -/
theorem shared_hub_mutated_in_place (h : Handler) (report : Context → Nat → Option Nat)
    (f : Request → InnerResult) (r : Request) (w : World) (hub0 : Nat)
    (hhub : r.ctx.hubEntry = some hub0) (hlt : hub0 < w.hubs.length) :
    (h.handle report f r w).world.hubs[hub0]? = some { request := some r } ∧
    (h.handle report f r w).world.hubs.length = w.hubs.length := by
  have hp := prepareHub_of_hub r w hub0 hhub
  rw [handle_world, hp]
  constructor
  · simpa [setRequestOnHub] using
      List.getElem?_set_eq_of_lt (l := w.hubs) { request := some r } hlt
  · simp [setRequestOnHub]

/-- Witness for C10: the caller-attached hub 0 holds the request after the
wrapped call, and the hub count is unchanged. -/
theorem shared_hub_mutated_in_place_witness :
    (sampleHandler.handle sampleReport samplePanicky sampleRequestWithHub
        sampleWorld).world.hubs[0]? = some { request := some sampleRequestWithHub } ∧
    (sampleHandler.handle sampleReport samplePanicky sampleRequestWithHub
        sampleWorld).world.hubs.length = sampleWorld.hubs.length :=
  shared_hub_mutated_in_place sampleHandler sampleReport samplePanicky sampleRequestWithHub
    sampleWorld 0 rfl (by decide)
